import Mathlib

/-!
Verification of the connection-lifecycle and server-orchestration core of the
`mcp-use` TypeScript library, as a shallow embedding in Lean 4.

Each definition below is translated from a named function of the source tree:
* `createConnectorFromConfig`   — `src/config.ts`
* `MCPClient.closeSession`      — `src/client.ts`
* `ConnectionManager`           — `src/task_managers/base.ts`
* `HttpConnector.connect`       — `src/connectors/http.ts`
* `WebSocketConnector`          — `src/connectors/websocket.ts`
* `ServerManager` and meta-tools — `src/managers/server_manager.ts`,
  `src/managers/tools/connect_mcp_server.ts`,
  `src/managers/tools/add_server_from_config.ts`

TypeScript `async` code in this layer is single-threaded cooperative code;
every awaited step either resolves or throws, so each method is modelled as a
pure function returning its new state plus an `Option`/`Except`-style thrown
error.  Strings thrown as `Error(msg)` are modelled by their message.
-/

namespace McpUse

/-- A single quote character, written via its code point. -/
def sq : String := "\x27"

/-- JavaScript `hay.includes(needle)`: substring containment. -/
def containsStr (hay needle : String) : Bool :=
  decide (needle.toList <:+: hay.toList)

/-! Section: config to connector selection (`createConnectorFromConfig`, src/config.ts) -/

/-- A JSON-ish value stored under one key of a server-config object. -/
inductive CVal
  | str (s : String)
  | arr (xs : List String)
  | map (m : List (String × String))
  | bool (b : Bool)
  deriving DecidableEq, Repr

/-- A server-config object: a finite map from key to value (JavaScript object
keys are distinct; we use the first binding). -/
abbrev Config := List (String × CVal)

/-- JavaScript `k in cfg`. -/
def Config.hasKey (cfg : Config) (k : String) : Bool :=
  (cfg.lookup k).isSome

/-- Value of `cfg.k` read as a string; absent or non-string keys read as `""`
(the claims only ever read keys they first tested for presence). -/
def Config.getStr (cfg : Config) (k : String) : String :=
  match cfg.lookup k with
  | some (CVal.str s) => s
  | _ => ""

/-- Value of `cfg.k` read as a string array. -/
def Config.getArr (cfg : Config) (k : String) : List String :=
  match cfg.lookup k with
  | some (CVal.arr xs) => xs
  | _ => []

/-- Truthiness of `cfg.k` (JavaScript `||` tests): a key is truthy when it is
present and not `false`, `""`, or an empty value we model. -/
def Config.truthy (cfg : Config) (k : String) : Bool :=
  match cfg.lookup k with
  | some (CVal.str s) => !(s == "")
  | some (CVal.bool b) => b
  | some _ => true
  | none => false

/-- The connector object `createConnectorFromConfig` builds. -/
inductive Connector
  | stdio (command : String) (args : List String)
  | http (url : String) (preferSse : Bool)
  | websocket (url : String)
  deriving DecidableEq, Repr

/-- Model of `createConnectorFromConfig` (src/config.ts): selects the connector type
from which keys are present, in source order `command`+`args`, then `url`,
then `ws_url`, else throws. For the HTTP branch the source computes
`transport = serverConfig.transport || "http"` (source uses string literals) and
`preferSse = serverConfig.preferSse || transport === "sse"`. -/
def createConnectorFromConfig (cfg : Config) : Except String Connector :=
  if cfg.hasKey "command" && cfg.hasKey "args" then
    Except.ok (Connector.stdio (cfg.getStr "command") (cfg.getArr "args"))
  else if cfg.hasKey "url" then
    let transport := if cfg.truthy "transport" then cfg.getStr "transport" else "http"
    let preferSse := cfg.truthy "preferSse" || transport == "sse"
    Except.ok (Connector.http (cfg.getStr "url") preferSse)
  else if cfg.hasKey "ws_url" then
    Except.ok (Connector.websocket (cfg.getStr "ws_url"))
  else
    Except.error "Cannot determine connector type from config"

/-! Section: MCPClient (src/client.ts).

Only the parts the claims touch are embedded: the configured-server map is
represented by its key set (`mcpServers`), a live session is represented by
one Boolean describing the behaviour of its `disconnect()` (`true` = the
disconnect call throws), and `activeSessions` is the name list the class
maintains.  `session.initialize()` and connector construction are external
I/O and are modelled as succeeding.  -/

structure ClientState where
  mcpServers : List String
  /-- Tracked sessions: `sessions[name]` exists iff `name` is a key here; the value records
  whether that session object throws when `disconnect()` is called. -/
  sessions : List (String × Bool)
  activeSessions : List String
  deriving DecidableEq, Repr

/-- JavaScript `obj[k] = v` on an object: overwrite the binding in place when
the key exists (object keys are distinct, so at most one binding matches),
else append the new binding. -/
def setAssoc {α : Type} : List (String × α) → String → α → List (String × α)
  | [], k, v => [(k, v)]
  | p :: t, k, v => if p.1 == k then (k, v) :: t else p :: setAssoc t k v

/-- Append an element if not already present (JavaScript
`if (!xs.includes(x)) xs.push(x)`). -/
def pushIfAbsent (l : List String) (x : String) : List String :=
  if l.contains x then l else l ++ [x]

/-- Model of `MCPClient.createSession` (src/client.ts): throws when the name is not
configured; otherwise stores a fresh session under the name and registers it
in `activeSessions` if absent.  A fresh session disconnects cleanly
(`false`). -/
def createSession (c : ClientState) (name : String) : Except String ClientState :=
  if c.mcpServers.contains name then
    Except.ok
      { c with
        sessions := setAssoc c.sessions name false
        activeSessions := pushIfAbsent c.activeSessions name }
  else
    Except.error ("Server " ++ sq ++ name ++ sq ++ " not found in config")

/-- Model of `MCPClient.closeSession` (src/client.ts): when no session is tracked it
logs a warning and returns; otherwise it awaits `session.disconnect()` inside
a `try` whose `catch` only logs, and a `finally` deletes the record and
filters the name out of `activeSessions`.  The `Except` result is the
outcome of the method: `Except.error` would be a rejection propagated to the
caller. -/
def closeSession (c : ClientState) (name : String) : Except String ClientState :=
  match c.sessions.lookup name with
  | none => Except.ok c
  | some disconnectThrows =>
      let disconnectResult : Except String Unit :=
        if disconnectThrows then Except.error "disconnect failed" else Except.ok ()
      let cleaned : ClientState :=
        { c with
          sessions := c.sessions.filter (fun p => !(p.1 == name))
          activeSessions := c.activeSessions.filter (fun n => !(n == name)) }
      match disconnectResult with
      | Except.ok _ => Except.ok cleaned
      | Except.error _e => Except.ok cleaned

/-! Section: ConnectionManager (src/task_managers/base.ts).

The class runs under single-threaded cooperative scheduling.  The subclass
is abstracted by the outcome of `establishConnection()` (`Except.ok handle`
or a thrown error) and by whether `closeConnection` throws.  The background
task is a straight-line `try/catch/finally`, embedded as a function from the
post-`reset` state to the final state plus the trace of subclass calls. -/

inductive CMEvent
  | establishCall
  | closeCall
  deriving DecidableEq, Repr

structure CMState where
  /-- Whether `_readyPromise` has been resolved. -/
  readyResolved : Bool
  /-- Whether `_donePromise` has been resolved (only the `finally` block of `connectionTask` does this). -/
  doneResolved : Bool
  /-- The `_exception` field. -/
  exception : Option String
  /-- The `_connection` field. -/
  connection : Option Nat
  /-- Whether `_task !== null`: a background `connectionTask` exists. -/
  task : Bool
  deriving DecidableEq, Repr

/-- Model of `reset()` — also the state of a freshly constructed manager, since the
constructor calls `reset()`: fresh (pending) promises, no exception, no
connection, no task. -/
def CMState.reset : CMState :=
  { readyResolved := false, doneResolved := false, exception := none
    connection := none, task := false }

/-- The `finally` block of `connectionTask`: if a connection handle exists,
call `closeConnection` (its errors are logged and swallowed), null the
handle; in every case resolve `_donePromise`. -/
def taskFinally (closeThrows : Bool) (s : CMState) (evs : List CMEvent) :
    CMState × List CMEvent :=
  match s.connection with
  | some _ =>
      -- `closeConnection(connection)`; a throw is caught and only logged
      let _ := closeThrows
      ({ s with connection := none, doneResolved := true }, evs ++ [CMEvent.closeCall])
  | none => ({ s with doneResolved := true }, evs)

/-- Model of `connectionTask()` run to completion (the `waitForAbort` suspension is
released by the abort signal raised in `stop()`): `try` establishes the connection and
resolves ready, `catch` stores the error and resolves ready, `finally` is
`taskFinally`. -/
def connectionTask (establish : Except String Nat) (closeThrows : Bool)
    (s : CMState) : CMState × List CMEvent :=
  match establish with
  | Except.ok conn =>
      taskFinally closeThrows
        { s with connection := some conn, readyResolved := true }
        [CMEvent.establishCall]
  | Except.error e =>
      taskFinally closeThrows
        { s with exception := some e, readyResolved := true }
        [CMEvent.establishCall]

/-- One full `start()`/`stop()` cycle: `start()` resets the state and
launches `connectionTask`; `stop()` aborts and awaits the task and the done
promise, so by the time `stop()` returns the task has run to completion.
The result is the final state and the trace of subclass calls made during
the cycle. -/
def startStopCycle (establish : Except String Nat) (closeThrows : Bool) :
    CMState × List CMEvent :=
  connectionTask establish closeThrows CMState.reset

/-- Whether `stop()` (src/task_managers/base.ts, lines 75–97) ever resolves
when called on state `s`: with a task present, `await this._task` completes
once the abort signal releases `waitForAbort`, and the `finally` block of the task
resolves `_donePromise`; with no task, `stop()` skips the abort block and
awaits `_donePromise` directly, which resolves only if something has already
resolved it. -/
def stopTerminates (s : CMState) : Bool :=
  s.task || s.doneResolved

/-! Section: HttpConnector (src/connectors/http.ts).

Mutable fields of the connector that `connect()` touches.  The two
establishment attempts are abstracted by their outcomes: `none` = the
connection manager start plus client handshake succeed, `some e` = some step
of the attempt throws `e`.  The SSE error is modelled by its interpolated
string form (what `${sseErr}` produces). -/

inductive TransportType
  | streamableHttp
  | sse
  deriving DecidableEq, Repr

/-- The string stored in `transportType`. -/
def TransportType.str : TransportType → String
  | TransportType.streamableHttp => "streamable-http"
  | TransportType.sse => "sse"

structure HttpState where
  connected : Bool
  transportType : Option TransportType
  /-- Whether `client !== null`. -/
  client : Bool
  /-- Whether `connectionManager !== null`. -/
  connectionManager : Bool
  toolsCache : Option (List String)
  deriving DecidableEq, Repr

/-- Field values of a freshly constructed connector. -/
def HttpState.init : HttpState :=
  { connected := false, transportType := none, client := false
    connectionManager := false, toolsCache := none }

/-- Model of `BaseConnector.cleanupResources` (src/connectors/base.ts): closes and
nulls the client, stops and nulls the connection manager (all errors logged,
swallowed), clears the tools cache.  `connected` and `transportType` are not
touched here. -/
def cleanupResources (s : HttpState) : HttpState :=
  { s with client := false, connectionManager := false, toolsCache := none }

/-- An error thrown during the streamable-HTTP attempt: either an SDK
`StreamableHTTPError` carrying an HTTP status code, or a generic `Error`
whose `toString()` is `"Error: " ++ message`. -/
inductive StreamErr
  | streamableHTTPError (code : Nat) (message : String)
  | jsError (message : String)
  deriving DecidableEq, Repr

/-- The `fallbackReason` string computed in the catch block of `HttpConnector.connect` (src/connectors/http.ts lines 66–91). -/
def fallbackReason (e : StreamErr) : String :=
  match e with
  | StreamErr.streamableHTTPError code message =>
      if code == 404 || code == 405 then
        s!"Server returned {code} - server likely doesn" ++ sq
          ++ "t support streamable HTTP"
      else
        s!"Server returned {code}: {message}"
  | StreamErr.jsError message =>
      let errorStr := "Error: " ++ message
      if containsStr errorStr "405 Method Not Allowed"
          || containsStr errorStr "404 Not Found" then
        "Server doesn" ++ sq ++ "t support streamable HTTP (405/404)"
      else
        s!"Streamable HTTP failed: {message}"

/-- Model of `connectWithStreamableHttp`: assigns a new connection manager, then
starts it and connects the client; on success records the transport type and
sets `connected`; on any throw cleans up partial resources and rethrows. -/
def connectWithStreamableHttp (outcome : Option StreamErr) (s : HttpState) :
    HttpState × Option StreamErr :=
  let s1 := { s with connectionManager := true }
  match outcome with
  | none =>
      ({ s1 with client := true, connected := true
                 transportType := some TransportType.streamableHttp }, none)
  | some e => (cleanupResources s1, some e)

/-- Model of `connectWithSse`: same shape as the streamable attempt, recording `sse`
as the transport on success. -/
def connectWithSse (outcome : Option String) (s : HttpState) :
    HttpState × Option String :=
  let s1 := { s with connectionManager := true }
  match outcome with
  | none =>
      ({ s1 with client := true, connected := true
                 transportType := some TransportType.sse }, none)
  | some e => (cleanupResources s1, some e)

structure HttpConnectResult where
  state : HttpState
  /-- Set to `some msg` iff `connect()` rejects, with the message of the thrown error. -/
  thrown : Option String
  logs : List String
  deriving DecidableEq, Repr

/-- Model of `HttpConnector.connect` (src/connectors/http.ts lines 43–107):
already-connected is a no-op; `preferSse` skips straight to SSE; otherwise
try streamable HTTP and on any failure compute `fallbackReason`, fall back
to SSE, and if that also fails log both reasons, clean up, and throw
`Error` with message `Could not connect to server with any available transport`. -/
def httpConnect (preferSse : Bool) (streamOutcome : Option StreamErr)
    (sseOutcome : Option String) (s : HttpState) : HttpConnectResult :=
  if s.connected then
    { state := s, thrown := none, logs := ["Already connected to MCP implementation"] }
  else if preferSse then
    let (s1, err) := connectWithSse sseOutcome s
    { state := s1, thrown := err, logs := [] }
  else
    let (s1, serr) := connectWithStreamableHttp streamOutcome s
    match serr with
    | none => { state := s1, thrown := none, logs := [] }
    | some e =>
        let reason := fallbackReason e
        let (s2, sseErr) := connectWithSse sseOutcome s1
        match sseErr with
        | none => { state := s2, thrown := none, logs := [reason] }
        | some se =>
            { state := cleanupResources s2
              thrown := some "Could not connect to server with any available transport"
              logs := [reason,
                       "Failed to connect with both transports:",
                       "  Streamable HTTP: " ++ reason,
                       "  SSE: " ++ se] }

structure PublicIdentifier where
  type : String
  url : String
  transport : String
  deriving DecidableEq, Repr

/-- Model of `HttpConnector.publicIdentifier` (src/connectors/http.ts lines 172–178):
`transportType || "unknown"` for the transport field. -/
def publicIdentifier (baseUrl : String) (s : HttpState) : PublicIdentifier :=
  { type := "http", url := baseUrl
    transport :=
      match s.transportType with
      | some t => t.str
      | none => "unknown" }

/-! Section: WebSocketConnector pending-request map (src/connectors/websocket.ts).

`pending : Map<string, {resolve, reject}>` holds the resolver pair of every
in-flight request; a promise is settled exactly when the resolver or rejecter of its entry is called.  State: the ids currently in the map (their promises are
pending) and the settlements produced so far. -/

inductive Settlement
  | resolvedWith (v : String)
  | rejectedWith (e : String)
  deriving DecidableEq, Repr

structure WSState where
  /-- The keys of the `pending` map; each holds an unsettled promise. -/
  pendingIds : List String
  /-- Requests already settled, with how each was settled. -/
  settlements : List (String × Settlement)
  deriving DecidableEq, Repr

/-- Model of `sendRequest`: creates a promise and stores its resolvers under a fresh
id (the socket-send error path is not modelled; the id is supplied). -/
def wsSendRequest (s : WSState) (id : String) : WSState :=
  { s with pendingIds := s.pendingIds ++ [id] }

/-- The `onMessage` handler of `receiveLoop`: a frame whose id matches a
pending entry deletes the entry and resolves with `data.result` or rejects
with `data.error`; anything else is logged and ignored. -/
def wsOnMessage (s : WSState) (id : String) (payload : Except String String) :
    WSState :=
  if s.pendingIds.contains id then
    { pendingIds := s.pendingIds.erase id
      settlements := s.settlements ++
        [(id, match payload with
              | Except.ok v => Settlement.resolvedWith v
              | Except.error e => Settlement.rejectedWith e)] }
  else s

/-- Model of `rejectAll(err)` (src/connectors/websocket.ts lines 125–128): calls
`reject(err)` on every pending entry, then clears the map. -/
def wsRejectAll (s : WSState) (err : String) : WSState :=
  { pendingIds := []
    settlements := s.settlements ++
      s.pendingIds.map (fun id => (id, Settlement.rejectedWith err)) }

/-- The `onClose` handler of `receiveLoop`: removes the message listener and
calls `rejectAll` with an `Error` whose message is `WebSocket closed`. -/
def wsOnClose (s : WSState) : WSState :=
  wsRejectAll s "WebSocket closed"

/-! Section: ServerManager and its meta-tools (src/managers).

`LTool` abstracts a `StructuredToolInterface` by its name; the LangChain
method `createToolsFromConnectors` of the adapter for a given server is abstracted by an
oracle `fetch : String → List LTool` giving the tools a fetch for that
server would produce (fetching is modelled as succeeding). -/

structure LTool where
  name : String
  deriving DecidableEq, Repr

structure SMState where
  client : ClientState
  serverTools : List (String × List LTool)
  initializedServers : List String
  activeServer : Option String
  deriving DecidableEq, Repr

/-- The five default management tools built in the `tools` getter
(src/managers/server_manager.ts lines 125–131), in source order. -/
def metaTools : List LTool :=
  [⟨"add_mcp_server_from_config"⟩, ⟨"list_mcp_servers"⟩,
   ⟨"connect_to_mcp_server"⟩, ⟨"get_active_mcp_server"⟩,
   ⟨"disconnect_from_mcp_server"⟩]

/-- The `tools` getter (src/managers/server_manager.ts lines 120–142) with
no override management tools: the meta-tools, plus the cached tools of the active server when `activeServer` is set and present in `serverTools`. -/
def smTools (m : SMState) : List LTool :=
  match m.activeServer with
  | some a =>
      match m.serverTools.lookup a with
      | some activeTools => metaTools ++ activeTools
      | none => metaTools
  | none => metaTools

/-- Model of `ConnectMCPServerTool._call` (src/managers/tools/connect_mcp_server.ts
lines 22–56): unknown name → not-found message; already active → short
message; else get-or-create the session, set the server active, and — only
when `serverTools[serverName]` already exists — fetch the tools through the
adapter and store them; finally report the length of `serverTools[serverName] || []`.  A thrown session creation is caught and reported as a failure
string. -/
def connectCall (fetch : String → List LTool) (m : SMState)
    (serverName : String) : SMState × String :=
  let serverNames := m.client.mcpServers
  if !(serverNames.contains serverName) then
    let available :=
      if serverNames.length > 0 then String.intercalate ", " serverNames else "none"
    (m, "Server " ++ sq ++ serverName ++ sq ++ " not found. Available servers: "
          ++ available)
  else if m.activeServer == some serverName then
    (m, "Already connected to MCP server " ++ sq ++ serverName ++ sq)
  else
    let sessionRes :=
      if (m.client.sessions.lookup serverName).isSome then Except.ok m.client
      else createSession m.client serverName
    match sessionRes with
    | Except.error e =>
        (m, "Failed to connect to server " ++ sq ++ serverName ++ sq ++ ": " ++ e)
    | Except.ok client1 =>
        let m1 := { m with client := client1, activeServer := some serverName }
        let m2 :=
          if (m1.serverTools.lookup serverName).isSome then
            { m1 with
              serverTools := setAssoc m1.serverTools serverName (fetch serverName)
              initializedServers := pushIfAbsent m1.initializedServers serverName }
          else m1
        let numTools := ((m2.serverTools.lookup serverName).getD []).length
        (m2, "Connected to MCP server " ++ sq ++ serverName ++ sq ++ ". "
               ++ s!"{numTools}" ++ " tools are now available.")

/-- Model of `AddMCPServerFromConfigTool._call`
(src/managers/tools/add_server_from_config.ts lines 28–59): adds the server
to the client config, creates a session, fetches tools through the adapter,
stores them, marks the server initialized, and sets it active. -/
def addServerFromConfigCall (fetch : String → List LTool) (m : SMState)
    (serverName : String) : SMState × String :=
  let client0 :=
    { m.client with mcpServers := pushIfAbsent m.client.mcpServers serverName }
  match createSession client0 serverName with
  | Except.error e =>
      ({ m with client := client0 },
       "Failed to add or connect to server " ++ sq ++ serverName ++ sq ++ ": " ++ e)
  | Except.ok client1 =>
      let tools := fetch serverName
      let m1 :=
        { m with
          client := client1
          serverTools := setAssoc m.serverTools serverName tools
          initializedServers := pushIfAbsent m.initializedServers serverName
          activeServer := some serverName }
      (m1, "Server " ++ sq ++ serverName ++ sq ++ " added to the client."
             ++ " Session created and connected. " ++ sq ++ serverName ++ sq
             ++ " is now the active server with " ++ toString tools.length
             ++ " tools available.")

/-- Model of `ReleaseMCPServerConnectionTool._call`
(src/managers/tools/release_mcp_server_connection.ts): clears only the
active-server pointer. -/
def releaseCall (m : SMState) : SMState × String :=
  match m.activeServer with
  | none =>
      (m, "No MCP server is currently active, so there" ++ sq
            ++ "s nothing to disconnect from.")
  | some serverName =>
      ({ m with activeServer := none },
       "Successfully disconnected from MCP server " ++ sq ++ serverName ++ sq ++ ".")

/-- One iteration of the loop of `prefetchServerTools`
(src/managers/server_manager.ts lines 68–118) for one server: reuse or
create a session (a failed creation is caught and the server skipped), fetch
its tools, and store them only when they differ from the cached list. -/
def prefetchOne (fetch : String → List LTool) (m : SMState) (name : String) :
    SMState :=
  let sessionRes :=
    if (m.client.sessions.lookup name).isSome then Except.ok m.client
    else createSession m.client name
  match sessionRes with
  | Except.error _ => m
  | Except.ok c1 =>
      let tools := fetch name
      if m.serverTools.lookup name == some tools then { m with client := c1 }
      else
        { m with
          client := c1
          serverTools := setAssoc m.serverTools name tools
          initializedServers := pushIfAbsent m.initializedServers name }

/-- Model of `prefetchServerTools`: the loop over every configured server. -/
def prefetchServerTools (fetch : String → List LTool) (m : SMState) : SMState :=
  m.client.mcpServers.foldl (prefetchOne fetch) m

/-- The concrete adapter oracle used by the evaluation theorems: every
server exposes two tools. -/
def fetchX : String → List LTool := fun _ => [⟨"t1"⟩, ⟨"t2"⟩]

/-- A manager over one configured server `"x"` with no session yet, nothing
cached, nothing active. -/
def smExample : SMState :=
  { client := { mcpServers := ["x"], sessions := [], activeSessions := [] }
    serverTools := [], initializedServers := [], activeServer := none }

/-! Section: helper lemmas. -/

/-- Storing a binding makes it the one `lookup` finds. -/
theorem lookup_setAssoc_self {α : Type} (l : List (String × α)) (k : String)
    (v : α) : (setAssoc l k v).lookup k = some v := by
  induction l with
  | nil => simp [setAssoc, List.lookup]
  | cons p t ih =>
      by_cases h : p.1 = k
      · simp [setAssoc, h, List.lookup]
      · have hb : (p.1 == k) = false := beq_eq_false_iff_ne.mpr h
        have hb2 : (k == p.1) = false := beq_eq_false_iff_ne.mpr (Ne.symm h)
        simp [setAssoc, hb, List.lookup, hb2, ih]

/-- Filtering out a key removes every binding `lookup` could find for it. -/
theorem lookup_filter_self_none {α : Type} (l : List (String × α))
    (k : String) : (l.filter (fun p => !(p.1 == k))).lookup k = none := by
  induction l with
  | nil => simp
  | cons p t ih =>
      by_cases h : p.1 = k
      · simp [List.filter, h, ih]
      · have hb : (p.1 == k) = false := beq_eq_false_iff_ne.mpr h
        have hb2 : (k == p.1) = false := beq_eq_false_iff_ne.mpr (Ne.symm h)
        simp [List.filter, hb, List.lookup, hb2, ih]

/-! Section: theorems settling the claims. -/

/-- C2: `stop()` on a `ConnectionManager` on which `start()` was never
called does not resolve: with `_task` null the abort block is skipped and
`stop()` awaits `_donePromise`, which only the `finally` block of a `connectionTask` would resolve — and none exists.  This contradicts the specified
property that such a `stop()` resolves without error. -/
theorem stop_before_start_hangs : stopTerminates CMState.reset = false := rfl

/-- C7: over one `start()`/`stop()` cycle, whatever the establishment
outcome and whether `closeConnection` throws, `closeConnection` is called at
most once, and exactly once iff `establishConnection` succeeded — hence
never after a failed establishment. -/
theorem close_at_most_once_only_after_establish (establish : Except String Nat)
    (closeThrows : Bool) :
    ((startStopCycle establish closeThrows).2.count CMEvent.closeCall ≤ 1)
    ∧ ((startStopCycle establish closeThrows).2.count CMEvent.closeCall
        = match establish with
          | Except.ok _ => 1
          | Except.error _ => 0) := by
  cases establish <;>
    simp [startStopCycle, connectionTask, taskFinally, CMState.reset,
      List.count_cons]

/-- C3: for a connector not preferring SSE and not yet connected, when the
streamable-HTTP attempt fails with a 404/405 `StreamableHTTPError` and the
SSE attempt succeeds, `connect()` resolves, the connector ends up connected,
and `publicIdentifier().transport` is `"sse"`. -/
theorem http_fallback_404_to_sse (baseUrl : String) (s : HttpState)
    (code : Nat) (msg : String) (hconn : s.connected = false)
    (_hcode : code = 404 ∨ code = 405) :
    (httpConnect false (some (StreamErr.streamableHTTPError code msg)) none s).thrown
        = none
    ∧ (httpConnect false (some (StreamErr.streamableHTTPError code msg)) none s).state.connected
        = true
    ∧ (publicIdentifier baseUrl
        (httpConnect false (some (StreamErr.streamableHTTPError code msg)) none s).state).transport
        = "sse" := by
  simp [httpConnect, hconn, connectWithStreamableHttp, connectWithSse,
    cleanupResources, publicIdentifier, TransportType.str]

/-- Closed instance of `http_fallback_404_to_sse` at a fresh connector and a
405 failure. -/
theorem http_fallback_404_to_sse_witness :
    (HttpState.init.connected = false ∧ ((405 : Nat) = 404 ∨ (405 : Nat) = 405))
    ∧ ((httpConnect false (some (StreamErr.streamableHTTPError 405 "Method Not Allowed")) none HttpState.init).thrown
        = none
      ∧ (httpConnect false (some (StreamErr.streamableHTTPError 405 "Method Not Allowed")) none HttpState.init).state.connected
        = true
      ∧ (publicIdentifier "http://localhost:3000"
          (httpConnect false (some (StreamErr.streamableHTTPError 405 "Method Not Allowed")) none HttpState.init).state).transport
        = "sse") :=
  ⟨⟨rfl, Or.inr rfl⟩,
    http_fallback_404_to_sse "http://localhost:3000" HttpState.init 405
      "Method Not Allowed" rfl (Or.inr rfl)⟩

/-- C4 as written is false: when both the streamable-HTTP attempt and the
SSE fallback fail, the error `connect()` raises carries the fixed message
`Could not connect to server with any available transport`; at the concrete
failure reasons below the raised message contains neither reason, and two
different pairs of reasons produce the identical raised message (the reasons
are only logged). -/
theorem http_both_fail_generic_message :
    (httpConnect false (some (StreamErr.jsError "stream boom"))
        (some "Error: sse boom") HttpState.init).thrown
      = some "Could not connect to server with any available transport"
    ∧ containsStr "Could not connect to server with any available transport"
        "stream boom" = false
    ∧ containsStr "Could not connect to server with any available transport"
        "sse boom" = false
    ∧ (httpConnect false (some (StreamErr.jsError "other reason"))
        (some "Error: different reason") HttpState.init).thrown
      = (httpConnect false (some (StreamErr.jsError "stream boom"))
        (some "Error: sse boom") HttpState.init).thrown := by
  refine ⟨rfl, by decide, by decide, rfl⟩

/-- C4 amended: when both attempts fail, `connect()` cleans up
partially-acquired resources and raises an error with the fixed message
`Could not connect to server with any available transport`; the two failure
reasons appear in the log output, not in the raised message. -/
theorem http_both_fail_raises_fixed_error (streamErr : StreamErr)
    (sseMsg : String) (s : HttpState) (h : s.connected = false) :
    (httpConnect false (some streamErr) (some sseMsg) s).thrown
      = some "Could not connect to server with any available transport"
    ∧ (httpConnect false (some streamErr) (some sseMsg) s).state.client = false
    ∧ (httpConnect false (some streamErr) (some sseMsg) s).state.connectionManager
      = false
    ∧ (httpConnect false (some streamErr) (some sseMsg) s).state.toolsCache = none
    ∧ ("  Streamable HTTP: " ++ fallbackReason streamErr)
        ∈ (httpConnect false (some streamErr) (some sseMsg) s).logs
    ∧ ("  SSE: " ++ sseMsg)
        ∈ (httpConnect false (some streamErr) (some sseMsg) s).logs := by
  simp [httpConnect, h, connectWithStreamableHttp, connectWithSse,
    cleanupResources]

/-- Closed instance of `http_both_fail_raises_fixed_error` at a fresh
connector and concrete failure reasons. -/
theorem http_both_fail_raises_fixed_error_witness :
    HttpState.init.connected = false
    ∧ ((httpConnect false (some (StreamErr.jsError "ECONNREFUSED"))
          (some "Error: SSE error") HttpState.init).thrown
        = some "Could not connect to server with any available transport"
      ∧ (httpConnect false (some (StreamErr.jsError "ECONNREFUSED"))
          (some "Error: SSE error") HttpState.init).state.client = false
      ∧ (httpConnect false (some (StreamErr.jsError "ECONNREFUSED"))
          (some "Error: SSE error") HttpState.init).state.connectionManager = false
      ∧ (httpConnect false (some (StreamErr.jsError "ECONNREFUSED"))
          (some "Error: SSE error") HttpState.init).state.toolsCache = none
      ∧ ("  Streamable HTTP: " ++ fallbackReason (StreamErr.jsError "ECONNREFUSED"))
          ∈ (httpConnect false (some (StreamErr.jsError "ECONNREFUSED"))
              (some "Error: SSE error") HttpState.init).logs
      ∧ ("  SSE: " ++ "Error: SSE error")
          ∈ (httpConnect false (some (StreamErr.jsError "ECONNREFUSED"))
              (some "Error: SSE error") HttpState.init).logs) :=
  ⟨rfl, http_both_fail_raises_fixed_error (StreamErr.jsError "ECONNREFUSED")
    "Error: SSE error" HttpState.init rfl⟩

/-- C9 as written is false at the key name it asserts: a config whose only
key is `wsUrl` (the shape the claim quotes) does not yield a WebSocket
connector — `createConnectorFromConfig` tests for the key `ws_url`, so this
config falls through every branch and raises the configuration error, while
the same value under `ws_url` does yield a WebSocket connector. -/
theorem wsUrl_key_not_recognized :
    createConnectorFromConfig [("wsUrl", CVal.str "ws://localhost:8080")]
      = Except.error "Cannot determine connector type from config"
    ∧ createConnectorFromConfig [("ws_url", CVal.str "ws://localhost:8080")]
      = Except.ok (Connector.websocket "ws://localhost:8080") := by
  refine ⟨rfl, rfl⟩

/-- C9 amended: `createConnectorFromConfig` selects by key presence in the
fixed precedence `command`+`args`, then `url`, then `ws_url` (snake case, not
`wsUrl`); a config matching no branch raises the configuration error. -/
theorem createConnectorFromConfig_precedence (cfg : Config) :
    ((cfg.hasKey "command" && cfg.hasKey "args") = true →
      createConnectorFromConfig cfg
        = Except.ok (Connector.stdio (cfg.getStr "command") (cfg.getArr "args")))
    ∧ ((cfg.hasKey "command" && cfg.hasKey "args") = false →
        cfg.hasKey "url" = true →
        createConnectorFromConfig cfg
          = Except.ok (Connector.http (cfg.getStr "url")
              (cfg.truthy "preferSse"
                || (if cfg.truthy "transport" then cfg.getStr "transport" else "http")
                    == "sse")))
    ∧ ((cfg.hasKey "command" && cfg.hasKey "args") = false →
        cfg.hasKey "url" = false → cfg.hasKey "ws_url" = true →
        createConnectorFromConfig cfg
          = Except.ok (Connector.websocket (cfg.getStr "ws_url")))
    ∧ ((cfg.hasKey "command" && cfg.hasKey "args") = false →
        cfg.hasKey "url" = false → cfg.hasKey "ws_url" = false →
        createConnectorFromConfig cfg
          = Except.error "Cannot determine connector type from config") := by
  refine ⟨fun h1 => ?_, fun h1 h2 => ?_, fun h1 h2 h3 => ?_, fun h1 h2 h3 => ?_⟩
  · simp [createConnectorFromConfig, h1]
  · simp [createConnectorFromConfig, h1, h2]
  · simp [createConnectorFromConfig, h1, h2, h3]
  · simp [createConnectorFromConfig, h1, h2, h3]

/-- Closed instances of `createConnectorFromConfig_precedence`: each branch
of the precedence applied to a concrete config. -/
theorem createConnectorFromConfig_precedence_witness :
    createConnectorFromConfig
        [("command", CVal.str "npx"), ("args", CVal.arr ["server"]), ("url", CVal.str "http://h")]
      = Except.ok (Connector.stdio "npx" ["server"])
    ∧ createConnectorFromConfig [("url", CVal.str "http://h")]
      = Except.ok (Connector.http "http://h" false)
    ∧ createConnectorFromConfig [("ws_url", CVal.str "ws://h")]
      = Except.ok (Connector.websocket "ws://h")
    ∧ createConnectorFromConfig [("env", CVal.map [])]
      = Except.error "Cannot determine connector type from config" := by
  refine ⟨?_, ?_, ?_, ?_⟩
  · exact (createConnectorFromConfig_precedence
      [("command", CVal.str "npx"), ("args", CVal.arr ["server"]), ("url", CVal.str "http://h")]).1
      (by decide)
  · exact (createConnectorFromConfig_precedence [("url", CVal.str "http://h")]).2.1
      (by decide) (by decide)
  · exact (createConnectorFromConfig_precedence [("ws_url", CVal.str "ws://h")]).2.2.1
      (by decide) (by decide) (by decide)
  · exact (createConnectorFromConfig_precedence [("env", CVal.map [])]).2.2.2
      (by decide) (by decide) (by decide)

/-- C10: for every tracked session name, `closeSession` resolves without
error (a throwing `disconnect` is caught and only logged), and its `finally`
block removes the session record and drops the name from the active-session
list. -/
theorem closeSession_always_cleans (c : ClientState) (name : String)
    (h : (c.sessions.lookup name).isSome = true) :
    ∃ c2, closeSession c name = Except.ok c2
      ∧ c2.sessions.lookup name = none
      ∧ name ∉ c2.activeSessions := by
  obtain ⟨b, hb⟩ := Option.isSome_iff_exists.mp h
  refine ⟨{ c with
      sessions := c.sessions.filter (fun p => !(p.1 == name))
      activeSessions := c.activeSessions.filter (fun n => !(n == name)) }, ?_, ?_, ?_⟩
  · unfold closeSession
    rw [hb]
    cases b <;> rfl
  · exact lookup_filter_self_none c.sessions name
  · intro hmem
    have := (List.mem_filter.mp hmem).2
    simp at this

/-- Closed instance of `closeSession_always_cleans`: a client tracking a
session whose `disconnect()` throws. -/
theorem closeSession_always_cleans_witness :
    (((⟨["a"], [("a", true)], ["a"]⟩ : ClientState).sessions.lookup "a").isSome = true)
    ∧ (∃ c2, closeSession (⟨["a"], [("a", true)], ["a"]⟩ : ClientState) "a" = Except.ok c2
        ∧ c2.sessions.lookup "a" = none
        ∧ "a" ∉ c2.activeSessions) :=
  ⟨rfl, closeSession_always_cleans (⟨["a"], [("a", true)], ["a"]⟩ : ClientState) "a" rfl⟩

/-- C8: when the close event of the socket fires, every request pending in the
request-id map is rejected with the connection-closed error (`WebSocket
closed`), every pending entry receives exactly one settlement (none is left
unresolved), and the pending map is left empty. -/
theorem ws_close_rejects_all_pending (s : WSState) :
    (wsOnClose s).pendingIds = []
    ∧ (wsOnClose s).settlements.length
        = s.settlements.length + s.pendingIds.length
    ∧ ∀ id ∈ s.pendingIds,
        (id, Settlement.rejectedWith "WebSocket closed") ∈ (wsOnClose s).settlements := by
  refine ⟨rfl, ?_, ?_⟩
  · simp [wsOnClose, wsRejectAll]
  · intro id hid
    simp only [wsOnClose, wsRejectAll, List.mem_append, List.mem_map]
    exact Or.inr ⟨id, hid, rfl⟩

/-- Closed instance of `ws_close_rejects_all_pending`: two requests pending,
both rejected and the map emptied. -/
theorem ws_close_rejects_all_pending_witness :
    (wsOnClose ⟨["req-1", "req-2"], []⟩).pendingIds = []
    ∧ ("req-1", Settlement.rejectedWith "WebSocket closed")
        ∈ (wsOnClose ⟨["req-1", "req-2"], []⟩).settlements
    ∧ ("req-2", Settlement.rejectedWith "WebSocket closed")
        ∈ (wsOnClose ⟨["req-1", "req-2"], []⟩).settlements :=
  ⟨(ws_close_rejects_all_pending ⟨["req-1", "req-2"], []⟩).1,
   (ws_close_rejects_all_pending ⟨["req-1", "req-2"], []⟩).2.2 "req-1" (by simp),
   (ws_close_rejects_all_pending ⟨["req-1", "req-2"], []⟩).2.2 "req-2" (by simp)⟩

/-- C1 as written is false on the code: connecting to a configured,
inactive server whose tools are NOT yet cached in `serverTools` does not
fetch its tools — the guard in `ConnectMCPServerTool._call` reads
`if (this.manager.serverTools[serverName])`, so it refreshes only already
cached servers.  At the concrete input below the adapter would supply two
tools, yet after the call nothing is cached for `"x"` and the returned
status string reports 0 tools. -/
theorem connect_uncached_does_not_fetch :
    (connectCall fetchX smExample "x").1.serverTools.lookup "x" = none
    ∧ fetchX "x" = [⟨"t1"⟩, ⟨"t2"⟩]
    ∧ (connectCall fetchX smExample "x").2
        = "Connected to MCP server " ++ sq ++ "x" ++ sq
            ++ ". 0 tools are now available." := by
  refine ⟨rfl, rfl, rfl⟩

/-- C5 as written is false on the code: after the reachable one-step
sequence `connect-to-server("x")` from a fresh manager (no prefetch), the
active server is `"x"` but `"x"` is not a key of `serverTools` — the
meta-tool activates the server before (and here without ever) caching its
tools, so the connect-before-activate invariant does not hold when the
`tools` getter is next consulted. -/
theorem active_server_missing_from_cache :
    (connectCall fetchX smExample "x").1.activeServer = some "x"
    ∧ (connectCall fetchX smExample "x").1.serverTools.lookup "x" = none := by
  refine ⟨rfl, rfl⟩

/-- C6: with no override management tools, the `tools` getter returns
exactly the five fixed meta-tools when no server is active, and after a
successful `connect-to-server(x)` (x configured and not already active) it
returns the five meta-tools followed by exactly the tools cached for `x`. -/
theorem serverManager_tool_exposure (fetch : String → List LTool)
    (m : SMState) (x : String)
    (hconf : m.client.mcpServers.contains x = true)
    (hactive : m.activeServer ≠ some x) :
    (m.activeServer = none → smTools m = metaTools)
    ∧ metaTools.length = 5
    ∧ smTools (connectCall fetch m x).1
        = metaTools ++ (((connectCall fetch m x).1.serverTools.lookup x).getD []) := by
  have hbeq : (m.activeServer == some x) = false := by
    rw [beq_eq_false_iff_ne]
    exact hactive
  refine ⟨fun h => by simp [smTools, h], rfl, ?_⟩
  simp only [connectCall, hconf, hbeq, createSession, Bool.not_true,
    Bool.false_eq_true, if_false]
  by_cases hsess : (m.client.sessions.lookup x).isSome
  · simp only [hsess, if_true]
    by_cases hcache : (m.serverTools.lookup x).isSome
    · simp [hcache, smTools, lookup_setAssoc_self]
    · simp [hcache, smTools, Option.not_isSome_iff_eq_none.mp hcache]
  · simp only [hsess, if_false, hconf, if_true]
    by_cases hcache : (m.serverTools.lookup x).isSome
    · simp [hcache, smTools, lookup_setAssoc_self]
    · simp [hcache, smTools, Option.not_isSome_iff_eq_none.mp hcache]

/-- Closed instance of `serverManager_tool_exposure` at a one-server
manager. -/
theorem serverManager_tool_exposure_witness :
    (smExample.client.mcpServers.contains "x" = true
      ∧ smExample.activeServer ≠ some "x")
    ∧ ((smExample.activeServer = none → smTools smExample = metaTools)
      ∧ metaTools.length = 5
      ∧ smTools (connectCall fetchX smExample "x").1
          = metaTools
              ++ (((connectCall fetchX smExample "x").1.serverTools.lookup "x").getD [])) :=
  ⟨⟨rfl, by decide⟩,
    serverManager_tool_exposure fetchX smExample "x" rfl (by decide)⟩

end McpUse
